import Mathlib

/-!
Verification of the KITS exam ERP grading engine (src/app.py).

The grading pipeline lives in `admin_dashboard` (src/app.py lines 143-198):
merge marks with subjects, coerce ESE marks to numbers, evaluate the 20%
ESE hurdle, set the passing boundary at 40% of the subject maximum, assign
preliminary grades row by row, resolve grace candidates per student with
the max-2-subjects rule, and pivot into the master sheet.  The statistical
threshold function `calculate_relative_thresholds` and the letter-grade
function `assign_grade` live in the class `kits_grading_engine`
(src/app.py lines 36-59).

Rationals stand in for Python floats in the pipeline; the statistical
threshold uses the reals because `np.std` takes a square root.
-/

namespace KitsGrading

/-- ESE marks reach the engine as strings (`sync_to_supabase` stores
`str(row[...])` when `is_ese`): either a string that parses as a number, or a
non-numeric string such as the absence sentinel "AB". -/
inductive EseMark where
  | num (v : ℚ)
  | nonNumeric (s : String)
deriving DecidableEq

/-- `pd.to_numeric(df[...], errors="coerce").fillna(0)` (src/app.py line 144):
a numeric value parses to itself, every non-numeric string becomes NaN and is
then filled with 0. -/
def eseNumeric : EseMark → ℚ
  | EseMark.num v => v
  | EseMark.nonNumeric _ => 0

/-- A row of the `subjects` table (src/app.py: columns used by the engine). -/
structure Subject where
  code : String
  ese_max : ℚ
  total_max : ℚ
deriving DecidableEq

/-- A row of the `marks_master` table. -/
structure MarkRecord where
  student_id : String
  subject_code : String
  cie_marks : ℚ
  ise_marks : ℚ
  ese_marks : EseMark
  attendance : ℚ
deriving DecidableEq

/-- A row of the merged frame `df` after lines 143-145 of src/app.py:
the mark record joined with its subject, with the derived columns
`ese_numeric` and `total_marks = cie_marks + ise_marks + ese_numeric`. -/
structure MRow where
  student_id : String
  code : String
  ese_max : ℚ
  total_max : ℚ
  ese_numeric : ℚ
  total_marks : ℚ
deriving DecidableEq

/-- One step of `pd.merge(marks, subjects, left_on="subject_code",
right_on="code")`: look the subject up by code (subject codes are unique);
a mark record whose code has no subject is dropped by the inner join. -/
def mergeRow (subjects : List Subject) (m : MarkRecord) : Option MRow :=
  (subjects.find? (fun s => s.code == m.subject_code)).map (fun s =>
    MRow.mk m.student_id s.code s.ese_max s.total_max (eseNumeric m.ese_marks)
      (m.cie_marks + m.ise_marks + eseNumeric m.ese_marks))

/-- Lines 143-145 of src/app.py: the merged frame with derived columns. -/
def mergeRows (marks : List MarkRecord) (subjects : List Subject) : List MRow :=
  marks.filterMap (mergeRow subjects)

/-- Line 149: `df["ese_hurdle_passed"] = df["ese_numeric"] >= 0.2 * df["ese_max"]`. -/
def ese_hurdle_passed (r : MRow) : Bool :=
  decide (0.2 * r.ese_max ≤ r.ese_numeric)

/-- Line 153: `df["passing_boundary"] = 0.40 * df["total_max"]`. -/
def passing_boundary (r : MRow) : ℚ :=
  0.40 * r.total_max

/-- Lines 157-159: `df.groupby("student_id")["ese_hurdle_passed"].all()`,
merged back onto every row of that student. -/
def eligible_for_grace (rows : List MRow) (sid : String) : Bool :=
  (rows.filter (fun r => r.student_id == sid)).all ese_hurdle_passed

/-- Lines 162-178, `compute_final_grade(row)`: hurdle failure is an automatic
F; a total at or above the boundary is a natural pass (the code returns the
placeholder "D" for every natural pass); a near miss of at most 3 marks by a
grace-eligible student is a grace candidate; everything else is F. -/
def compute_final_grade (rows : List MRow) (r : MRow) : String :=
  if ¬ ese_hurdle_passed r then "F"
  else if passing_boundary r ≤ r.total_marks then "D"
  else if eligible_for_grace rows r.student_id ∧ passing_boundary r - r.total_marks ≤ 3 then
    "Grace_Candidate"
  else "F"

/-- Lines 183-185: `df[df["temp_grade"] == "Grace_Candidate"].groupby("student_id").size()`,
merged back with fillna 0: the number of grace-candidate rows of the student. -/
def num_grace_needed (rows : List MRow) (sid : String) : Nat :=
  ((rows.filter (fun r => compute_final_grade rows r == "Grace_Candidate")).filter
      (fun r => r.student_id == sid)).length

/-- Lines 187-193, `finalize_grade(row)`: a grace candidate becomes "D*" when
the student needs grace in at most 2 subjects, otherwise "F"; every other row
keeps its preliminary grade. -/
def finalize_grade (rows : List MRow) (r : MRow) : String :=
  if compute_final_grade rows r == "Grace_Candidate" then
    if num_grace_needed rows r.student_id ≤ 2 then "D*"
    else "F"
  else compute_final_grade rows r

/-- Line 198: `df.pivot(index="student_id", columns="code", values="final_grade")`.
A cell of the master sheet: the final grade of the (student, subject) row when
one exists, and an empty (NaN) cell otherwise. -/
def master_cell (rows : List MRow) (sid code : String) : Option String :=
  (rows.find? (fun r => r.student_id == sid && r.code == code)).map (finalize_grade rows)

/-- One finalization run (lines 143-198 as a whole): the produced master sheet
agrees, cell by cell, with the pipeline applied to the input collections.  The
run reads nothing but `marks` and `subjects`. -/
def FinalizeRun (marks : List MarkRecord) (subjects : List Subject)
    (sheet : String → String → Option String) : Prop :=
  ∀ sid code, sheet sid code = master_cell (mergeRows marks subjects) sid code

/-- `kits_grading_engine.assign_grade` (src/app.py lines 50-59), verbatim:
below the threshold is F, then A+ at 90% of the maximum, A at 80%, and
everything else at or above the threshold is D. -/
def assign_grade (mark threshold total_max : ℚ) : String :=
  if mark < threshold then "F"
  else if 0.9 * total_max ≤ mark then "A+"
  else if 0.8 * total_max ≤ mark then "A"
  else if threshold ≤ mark then "D"
  else "F"

/-- `np.mean` over the reals. -/
noncomputable def npMean (marks : List ℝ) : ℝ :=
  marks.sum / marks.length

/-- The population variance: mean of the squared deviations from the mean,
with divisor `n` (numpy computes `np.std` with default `ddof=0`). -/
noncomputable def npVar (marks : List ℝ) : ℝ :=
  ((marks.map (fun x => (x - npMean marks) ^ 2)).sum) / marks.length

/-- `np.std` with its default `ddof=0`: the population standard deviation. -/
noncomputable def npStd (marks : List ℝ) : ℝ :=
  Real.sqrt (npVar marks)

/-- `kits_grading_engine.calculate_relative_thresholds` (src/app.py lines
38-48): absolute grading (40% of the maximum) for fewer than 30 marks,
otherwise `mean - 1.5 * std` clamped between 30% of the maximum and the
`p_threshold` reference. -/
noncomputable def calculate_relative_thresholds
    (marks : List ℝ) (total_max p_threshold : ℝ) : ℝ :=
  if marks.length < 30 then 0.40 * total_max
  else max (0.30 * total_max) (min (npMean marks - 1.5 * npStd marks) p_threshold)

/-- C1: after grace resolution, a grace-candidate row becomes "D*" when the
student's candidate count is between 1 and 2, becomes "F" when the count
exceeds 2, and every non-candidate row keeps its preliminary grade; moreover a
candidate row that is in the dataset always makes the count at least 1, so the
decision is all-or-nothing across the student's candidate rows. -/
theorem grace_resolution (rows : List MRow) (r : MRow) :
    (compute_final_grade rows r = "Grace_Candidate" →
      (1 ≤ num_grace_needed rows r.student_id → num_grace_needed rows r.student_id ≤ 2 →
        finalize_grade rows r = "D*") ∧
      (2 < num_grace_needed rows r.student_id → finalize_grade rows r = "F")) ∧
    (compute_final_grade rows r ≠ "Grace_Candidate" →
      finalize_grade rows r = compute_final_grade rows r) ∧
    (r ∈ rows → compute_final_grade rows r = "Grace_Candidate" →
      1 ≤ num_grace_needed rows r.student_id) := by
  refine ⟨fun hgc => ⟨fun _ hle => ?_, fun hgt => ?_⟩, fun hne => ?_, fun hmem hgc => ?_⟩
  · simp [finalize_grade, hgc, hle]
  · simp [finalize_grade, hgc, Nat.not_le.mpr hgt]
  · simp [finalize_grade, hne]
  · have h1 : r ∈ (rows.filter
        (fun x => compute_final_grade rows x == "Grace_Candidate")).filter
        (fun x => x.student_id == r.student_id) := by
      simp [List.mem_filter, hmem, hgc]
    exact List.length_pos_of_mem h1

/-- C1 witness: a lone grace-candidate row (total 38 against boundary 40,
hurdle passed) is awarded "D*". -/
theorem grace_resolution_witness :
    finalize_grade [MRow.mk "S1" "M1" 50 100 20 38] (MRow.mk "S1" "M1" 50 100 20 38) = "D*" :=
  ((grace_resolution [MRow.mk "S1" "M1" 50 100 20 38] (MRow.mk "S1" "M1" 50 100 20 38)).1
    (by norm_num [compute_final_grade, ese_hurdle_passed, eligible_for_grace, passing_boundary])).1
    (by norm_num [num_grace_needed, compute_final_grade, ese_hurdle_passed, eligible_for_grace,
      passing_boundary])
    (by norm_num [num_grace_needed, compute_final_grade, ese_hurdle_passed, eligible_for_grace,
      passing_boundary])

/-- C2: the grace-eligibility flag of a student is the conjunction of
`ese_hurdle_passed` over all of that student's rows, and a single hurdle
failure anywhere prevents every row of that student from becoming a grace
candidate (in particular rows whose gap to the boundary is at most 3). -/
theorem eligible_is_and_of_hurdles (rows : List MRow) (sid : String) :
    (eligible_for_grace rows sid = true ↔
      ∀ r ∈ rows, r.student_id = sid → ese_hurdle_passed r = true) ∧
    (∀ r0 ∈ rows, r0.student_id = sid → ese_hurdle_passed r0 = false →
      ∀ r ∈ rows, r.student_id = sid → compute_final_grade rows r ≠ "Grace_Candidate") := by
  have hiff : eligible_for_grace rows sid = true ↔
      ∀ r ∈ rows, r.student_id = sid → ese_hurdle_passed r = true := by
    simp only [eligible_for_grace, List.all_eq_true, List.mem_filter, beq_iff_eq]
    tauto
  refine ⟨hiff, fun r0 hmem0 hsid0 hfail r hmem hsid => ?_⟩
  have helig : eligible_for_grace rows r.student_id = false := by
    rw [hsid]
    cases h : eligible_for_grace rows sid with
    | false => rfl
    | true => exact absurd (hiff.mp h r0 hmem0 hsid0) (by simp [hfail])
  unfold compute_final_grade
  rw [helig]
  split_ifs with h1 h2 h3
  all_goals first
  | decide
  | simp at h3

/-- C2 witness: student S3 fails the hurdle in M1, so S3's row in M2 is not a
grace candidate even though its gap to the boundary is 2 ≤ 3. -/
theorem eligible_is_and_of_hurdles_witness :
    compute_final_grade [MRow.mk "S3" "M1" 50 100 5 60, MRow.mk "S3" "M2" 50 100 20 38]
      (MRow.mk "S3" "M2" 50 100 20 38) ≠ "Grace_Candidate" :=
  (eligible_is_and_of_hurdles
      [MRow.mk "S3" "M1" 50 100 5 60, MRow.mk "S3" "M2" 50 100 20 38] "S3").2
    (MRow.mk "S3" "M1" 50 100 5 60) (by simp) rfl (by norm_num [ese_hurdle_passed])
    (MRow.mk "S3" "M2" 50 100 20 38) (by simp) rfl

/-- C4: the preliminary grade follows the state machine — hurdle failure
(coerced ESE below 20% of the ESE maximum) gives F regardless of totals; a
passed hurdle with total at or above the boundary is a natural pass ("D" is
the pipeline's natural-pass marker); a passed hurdle with a shortfall of at
most 3 by a grace-eligible student gives Grace_Candidate; everything else
gives F.  The coercion maps every non-numeric value (the sentinel included)
to 0, and the merge step installs exactly that coerced value in the row. -/
theorem preliminary_grade_state_machine (rows : List MRow) (r : MRow) :
    (r.ese_numeric < 0.2 * r.ese_max → compute_final_grade rows r = "F") ∧
    (0.2 * r.ese_max ≤ r.ese_numeric → passing_boundary r ≤ r.total_marks →
      compute_final_grade rows r = "D") ∧
    (0.2 * r.ese_max ≤ r.ese_numeric → r.total_marks < passing_boundary r →
      eligible_for_grace rows r.student_id = true → passing_boundary r - r.total_marks ≤ 3 →
      compute_final_grade rows r = "Grace_Candidate") ∧
    (0.2 * r.ese_max ≤ r.ese_numeric → r.total_marks < passing_boundary r →
      ¬(eligible_for_grace rows r.student_id = true ∧ passing_boundary r - r.total_marks ≤ 3) →
      compute_final_grade rows r = "F") ∧
    (∀ s : String, eseNumeric (EseMark.nonNumeric s) = 0) ∧
    (∀ (subs : List Subject) (m : MarkRecord) (row : MRow),
      mergeRow subs m = some row → row.ese_numeric = eseNumeric m.ese_marks) := by
  refine ⟨fun h => ?_, fun h1 h2 => ?_, fun h1 h2 h3 h4 => ?_, fun h1 h2 h3 => ?_,
    fun s => rfl, fun subs m row h => ?_⟩
  · have hb : ese_hurdle_passed r = false := by
      simp [ese_hurdle_passed, not_le.mpr h]
    simp [compute_final_grade, hb]
  · have hb : ese_hurdle_passed r = true := by
      simp [ese_hurdle_passed, h1]
    simp [compute_final_grade, hb, h2]
  · have hb : ese_hurdle_passed r = true := by
      simp [ese_hurdle_passed, h1]
    simp [compute_final_grade, hb, not_le.mpr h2, h3, h4]
  · have hb : ese_hurdle_passed r = true := by
      simp [ese_hurdle_passed, h1]
    simp only [compute_final_grade, hb, not_le.mpr h2]
    simp only [Bool.not_true, Bool.false_eq_true, if_false, not_le.mpr h2, if_false]
    rw [if_neg (by simp), if_neg h3]
  · simp only [mergeRow, Option.map_eq_some'] at h
    obtain ⟨s, -, rfl⟩ := h
    rfl

/-- C4 witness: a row with ESE 20 of 50 (hurdle passed), total 38 against
boundary 40, whose student is grace-eligible, is a grace candidate. -/
theorem preliminary_grade_state_machine_witness :
    compute_final_grade [MRow.mk "S1" "M2" 50 100 20 38] (MRow.mk "S1" "M2" 50 100 20 38) =
      "Grace_Candidate" :=
  (preliminary_grade_state_machine [MRow.mk "S1" "M2" 50 100 20 38]
      (MRow.mk "S1" "M2" 50 100 20 38)).2.2.1 (by norm_num) (by norm_num [passing_boundary])
    (by norm_num [eligible_for_grace, ese_hurdle_passed]) (by norm_num [passing_boundary])

/-- C3: with fewer than 30 totals the boundary is exactly 40% of the maximum;
with at least 30 it is `mean - 1.5 * std` clamped between 30% of the maximum
and the upper reference, so whenever the upper reference is at least 30% of
the maximum the boundary lies between those two values. -/
theorem compute_boundary_spec (marks : List ℝ) (total_max p_threshold : ℝ) :
    (marks.length < 30 →
      calculate_relative_thresholds marks total_max p_threshold = 0.40 * total_max) ∧
    (30 ≤ marks.length →
      calculate_relative_thresholds marks total_max p_threshold =
        max (0.30 * total_max) (min (npMean marks - 1.5 * npStd marks) p_threshold)) ∧
    (30 ≤ marks.length → 0.30 * total_max ≤ p_threshold →
      0.30 * total_max ≤ calculate_relative_thresholds marks total_max p_threshold ∧
      calculate_relative_thresholds marks total_max p_threshold ≤ p_threshold) := by
  refine ⟨fun h => ?_, fun h => ?_, fun h hup => ?_⟩
  · simp [calculate_relative_thresholds, h]
  · simp [calculate_relative_thresholds, Nat.not_lt.mpr h]
  · rw [calculate_relative_thresholds, if_neg (Nat.not_lt.mpr h)]
    exact ⟨le_max_left _ _, max_le hup (le_trans (min_le_right _ _) le_rfl)⟩

/-- C3 witness: 30 totals of 50 out of 100 with upper reference 45 give a
boundary between 30 and 45. -/
theorem compute_boundary_spec_witness :
    0.30 * (100 : ℝ) ≤ calculate_relative_thresholds (List.replicate 30 (50 : ℝ)) 100 45 ∧
    calculate_relative_thresholds (List.replicate 30 (50 : ℝ)) 100 45 ≤ 45 :=
  (compute_boundary_spec (List.replicate 30 (50 : ℝ)) 100 45).2.2 (by simp) (by norm_num)

/-- C10: in the relative branch the boundary uses the population standard
deviation: `npStd` is nonnegative and its square times the population size is
the sum of squared deviations from the mean — the divisor is `n` (numpy's
default `ddof=0`), not `n - 1`. -/
theorem relative_std_population (marks : List ℝ) (total_max p_threshold : ℝ) :
    (30 ≤ marks.length →
      calculate_relative_thresholds marks total_max p_threshold =
        max (0.30 * total_max) (min (npMean marks - 1.5 * npStd marks) p_threshold)) ∧
    0 ≤ npStd marks ∧
    npStd marks ^ 2 * (marks.length : ℝ) =
      ((marks.map (fun x => (x - npMean marks) ^ 2)).sum) := by
  have hsum : 0 ≤ ((marks.map (fun x => (x - npMean marks) ^ 2)).sum) := by
    apply List.sum_nonneg
    intro x hx
    simp only [List.mem_map] at hx
    obtain ⟨a, -, rfl⟩ := hx
    positivity
  have hvar : 0 ≤ npVar marks := div_nonneg hsum (Nat.cast_nonneg _)
  refine ⟨fun h => by simp [calculate_relative_thresholds, Nat.not_lt.mpr h],
    Real.sqrt_nonneg _, ?_⟩
  rw [npStd, Real.sq_sqrt hvar, npVar]
  rcases Nat.eq_zero_or_pos marks.length with h0 | hpos
  · rw [List.length_eq_zero] at h0
    subst h0
    simp
  · exact div_mul_cancel₀ _ (by exact_mod_cast hpos.ne')

/-- C10 witness: the relative branch taken on 30 equal totals. -/
theorem relative_std_population_witness :
    calculate_relative_thresholds (List.replicate 30 (50 : ℝ)) 100 45 =
      max (0.30 * (100 : ℝ))
        (min (npMean (List.replicate 30 (50 : ℝ)) - 1.5 * npStd (List.replicate 30 (50 : ℝ)))
          45) :=
  (relative_std_population (List.replicate 30 (50 : ℝ)) 100 45).1 (by simp)

/-- C9: finalization is deterministic — two runs on identical input
collections produce master sheets that agree on every cell.  (`FinalizeRun`
reads nothing but the supplied `marks` and `subjects` lists, which it leaves
untouched: the run is a pure function of its input.) -/
theorem finalize_run_deterministic (marks : List MarkRecord) (subjects : List Subject)
    (sheet1 sheet2 : String → String → Option String)
    (h1 : FinalizeRun marks subjects sheet1) (h2 : FinalizeRun marks subjects sheet2)
    (sid code : String) :
    sheet1 sid code = sheet2 sid code := by
  rw [h1 sid code, h2 sid code]

/-- C9 witness: two runs on a one-record dataset agree on the cell of that
record. -/
theorem finalize_run_deterministic_witness :
    master_cell (mergeRows [MarkRecord.mk "S1" "M1" 30 10 (EseMark.num 40) 0]
        [Subject.mk "M1" 50 100]) "S1" "M1" =
      master_cell (mergeRows [MarkRecord.mk "S1" "M1" 30 10 (EseMark.num 40) 0]
        [Subject.mk "M1" 50 100]) "S1" "M1" :=
  finalize_run_deterministic [MarkRecord.mk "S1" "M1" 30 10 (EseMark.num 40) 0]
    [Subject.mk "M1" 50 100]
    (fun sid code => master_cell (mergeRows [MarkRecord.mk "S1" "M1" 30 10 (EseMark.num 40) 0]
      [Subject.mk "M1" 50 100]) sid code)
    (fun sid code => master_cell (mergeRows [MarkRecord.mk "S1" "M1" 30 10 (EseMark.num 40) 0]
      [Subject.mk "M1" 50 100]) sid code)
    (fun _ _ => rfl) (fun _ _ => rfl) "S1" "M1"

/-- C5 (code bug): the pipeline gives the placeholder "D" to every natural
pass — a row with 95 of 100 total marks, where the claimed table demands A+,
gets "D"; likewise `assign_grade` gives "D" at 75% where the table demands B,
because the B and C bands are absent from the code. -/
theorem natural_pass_placeholder_eval :
    compute_final_grade [MRow.mk "S1" "M1" 50 100 40 95] (MRow.mk "S1" "M1" 50 100 40 95) =
        "D" ∧
    assign_grade 75 40 100 = "D" ∧
    ("D" : String) ≠ "A+" ∧ ("D" : String) ≠ "B" := by
  refine ⟨?_, ?_, by decide, by decide⟩
  · norm_num [compute_final_grade, ese_hurdle_passed, passing_boundary]
  · norm_num [assign_grade]

/-- C6 (code bug): a subject with `total_max = 0` is processed silently — the
threshold function returns the boundary 0, the pipeline sets the passing
boundary 0, and a zero-max row is graded "D"; no configuration error exists
anywhere in the code. -/
theorem zero_total_max_silent :
    calculate_relative_thresholds (List.replicate 5 (0 : ℝ)) 0 0 = 0 ∧
    passing_boundary (MRow.mk "S1" "M1" 0 0 0 0) = 0 ∧
    compute_final_grade [MRow.mk "S1" "M1" 0 0 0 0] (MRow.mk "S1" "M1" 0 0 0 0) = "D" := by
  refine ⟨?_, ?_, ?_⟩
  · norm_num [calculate_relative_thresholds]
  · norm_num [passing_boundary]
  · norm_num [compute_final_grade, ese_hurdle_passed, passing_boundary]

/-- C7 (code bug): `pd.to_numeric(..., errors="coerce").fillna(0)` coerces an
arbitrary non-numeric marks value to 0 exactly as it does the recognized
absence sentinel "AB" — nothing in the code rejects garbage. -/
theorem garbage_coerced_like_sentinel :
    eseNumeric (EseMark.nonNumeric "garbage") = 0 ∧
    eseNumeric (EseMark.nonNumeric "AB") = 0 ∧
    eseNumeric (EseMark.nonNumeric "garbage") = eseNumeric (EseMark.nonNumeric "AB") :=
  ⟨rfl, rfl, rfl⟩

/-- C8 (code bug): `df.pivot` silently produces an empty (NaN) cell for a
(student, subject) pair that is in the matrix domain but has no row: with S1
graded in M1 and M2 but S2 graded only in M1, the cell (S2, M2) is empty
while the neighbouring cells are populated — no error is raised. -/
theorem pivot_missing_pair_empty_cell :
    master_cell [MRow.mk "S1" "M1" 50 100 20 80, MRow.mk "S1" "M2" 50 100 20 80,
        MRow.mk "S2" "M1" 50 100 20 80] "S2" "M2" = none ∧
    master_cell [MRow.mk "S1" "M1" 50 100 20 80, MRow.mk "S1" "M2" 50 100 20 80,
        MRow.mk "S2" "M1" 50 100 20 80] "S2" "M1" = some "D" ∧
    master_cell [MRow.mk "S1" "M1" 50 100 20 80, MRow.mk "S1" "M2" 50 100 20 80,
        MRow.mk "S2" "M1" 50 100 20 80] "S1" "M2" = some "D" := by
  have hS : ("S1" : String) = "S2" ↔ False := by simp only [iff_false]; decide
  have hM : ("M1" : String) = "M2" ↔ False := by simp only [iff_false]; decide
  have hM2 : ("M2" : String) = "M1" ↔ False := by simp only [iff_false]; decide
  have hD : ("D" : String) = "Grace_Candidate" ↔ False := by simp only [iff_false]; decide
  have hF : ("F" : String) = "Grace_Candidate" ↔ False := by simp only [iff_false]; decide
  refine ⟨?_, ?_, ?_⟩ <;>
    norm_num [master_cell, List.find?_cons_of_neg, List.find?_cons_of_pos, hS, hM, hM2, hD, hF,
      finalize_grade, num_grace_needed, compute_final_grade, ese_hurdle_passed,
      eligible_for_grace, passing_boundary]

end KitsGrading
